import Mathlib

/-!
Verification development for the PPAH session-integrity engine and signaling
room manager (repository `ppah3.0`, files `src/server/ppah_server.py`,
`src/server/models.py`, `src/server/signaling.py`).

The Python code is shallowly embedded: classes become structures, in-place
mutation becomes explicit state passing, `datetime.now()` becomes a `now : Nat`
parameter measured in seconds, and the process-wide dictionaries become
association lists.  HMAC-SHA256 is kept abstract as a parameter
`mac : String → String → String` (key, message ↦ hex digest): every theorem
about the verifier holds for an arbitrary `mac`, which captures exactly the
composition of the primitive specified by the code, not the primitive itself.
-/

namespace PPAH

/-! ## Association-list maps (the process-wide Python dicts) -/

/-- Lookup in an association list, mirroring Python `d[k]` / `k in d`. -/
def alookup {α : Type} (l : List (String × α)) (k : String) : Option α :=
  match l with
  | [] => none
  | (k', v) :: rest => if k' = k then some v else alookup rest k

/-- Update (or insert) a binding, mirroring Python `d[k] = v`. -/
def aset {α : Type} (l : List (String × α)) (k : String) (v : α) :
    List (String × α) :=
  match l with
  | [] => [(k, v)]
  | (k', v') :: rest => if k' = k then (k, v) :: rest else (k', v') :: aset rest k v

/-- Delete a binding, mirroring Python `del d[k]`. -/
def adel {α : Type} (l : List (String × α)) (k : String) : List (String × α) :=
  l.filter (fun p => decide (p.1 ≠ k))

theorem alookup_aset {α : Type} (l : List (String × α)) (k k' : String) (v : α) :
    alookup (aset l k v) k' = if k = k' then some v else alookup l k' := by
  induction l with
  | nil => simp [aset, alookup]
  | cons hd tl ih =>
    obtain ⟨k₀, v₀⟩ := hd
    by_cases h0 : k₀ = k
    · subst h0
      by_cases h1 : k₀ = k' <;> simp [aset, alookup, h1]
    · by_cases h1 : k₀ = k'
      · subst h1
        have hk : ¬ k = k₀ := fun h => h0 h.symm
        simp [aset, alookup, h0, hk]
      · simp [aset, alookup, h0, h1, ih]

theorem alookup_adel {α : Type} (l : List (String × α)) (k k' : String) :
    alookup (adel l k) k' = if k = k' then none else alookup l k' := by
  induction l with
  | nil => simp [adel, alookup]
  | cons hd tl ih =>
    obtain ⟨k₀, v₀⟩ := hd
    by_cases h0 : k₀ = k
    · subst h0
      have : ¬ (k₀ ≠ k₀) := by simp
      by_cases h1 : k₀ = k'
      · subst h1; simpa [adel, alookup] using ih
      · simp only [adel, List.filter] at ih ⊢
        simpa [alookup, h1] using ih
    · by_cases h1 : k₀ = k'
      · subst h1
        have hk : ¬ k = k₀ := fun h => h0 h.symm
        simp [adel, List.filter, alookup, h0, hk]
      · simp only [adel, List.filter] at ih ⊢
        simp only [alookup]
        by_cases h2 : k = k'
        · subst h2; simpa [alookup, h0, h1] using ih
        · simpa [alookup, h0, h1, h2] using ih

/-! ## Session record of `src/server/ppah_server.py` (class `PPAHSession`)

Timestamps are seconds as `Nat`; `datetime.now()` is the `now` parameter.
`segment_id` is a Python `int`, embedded as `Int`. -/

/-- One entry of `hash_chain`: a record of segment_id, hash and timestamp. -/
structure HashEntry where
  segment_id : Int
  hash : String
  timestamp : Nat
deriving Repr, DecidableEq

/-- One entry of `anomaly_log`:
a record of timestamp, description and segment_count. -/
structure Anomaly where
  timestamp : Nat
  description : String
  segment_count : Int
deriving Repr, DecidableEq

/-- The mutable state of `PPAHSession.__init__` in `ppah_server.py`.
`status` is the literal Python string (`"active"`, `"frozen"`, `"terminated"`);
`session_key`, `freeze_reason`, `email`, `camera_fingerprint` are `Optional`. -/
structure Session where
  session_id : String
  email : Option String
  created_at : Nat
  last_activity : Nat
  status : String
  segment_count : Int
  hash_chain : List HashEntry
  freeze_reason : Option String
  session_key : Option String
  camera_fingerprint : Option String
  camera_fingerprint_locked : Bool
  anomaly_log : List Anomaly
deriving Repr, DecidableEq

/-- Python truthiness of `self.session_key` in `if not self.session_key`:
`None` and the empty string are falsy. -/
def keyTruthy : Option String → Bool
  | none => false
  | some k => decide (k ≠ "")

/-- Embeds `PPAHSession.log_anomaly`: appends to `anomaly_log`. -/
def Session.log_anomaly (s : Session) (now : Nat) (description : String) : Session :=
  { s with anomaly_log := s.anomaly_log ++
      [{ timestamp := now, description := description,
         segment_count := s.segment_count }] }

/-- Embeds `PPAHSession.freeze`: sets `status = "frozen"` and records the reason. -/
def Session.freeze (s : Session) (reason : String) : Session :=
  { s with status := "frozen", freeze_reason := some reason }

/-- Embeds `PPAHSession.terminate`: sets `status = "terminated"`. -/
def Session.terminate (s : Session) : Session :=
  { s with status := "terminated" }

/-- The message signed by the client, rebuilt in `verify_signature`:
`f"{self.session_id}{segment_id}{hash_value}"`. -/
def sigMessage (session_id : String) (segment_id : Int) (hash_value : String) :
    String :=
  session_id ++ toString segment_id ++ hash_value

/-- Embeds `PPAHSession.verify_signature`.  `mac key message` stands for
`hmac.new(key, message, sha256).hexdigest()`; `hmac.compare_digest` is
equality of the two hex strings (its constant-time execution is a timing
property outside the embedding).  Returns the boolean verdict together with
the session, whose `anomaly_log` grows when the key is missing. -/
def Session.verify_signature (mac : String → String → String) (s : Session)
    (now : Nat) (segment_id : Int) (hash_value signature : String) :
    Bool × Session :=
  if ¬ keyTruthy s.session_key then
    (false, s.log_anomaly now "Missing session key for signature verification")
  else
    let expected_sig := mac (s.session_key.getD "")
      (sigMessage s.session_id segment_id hash_value)
    (decide (expected_sig = signature), s)

/-- Embeds `PPAHSession.add_hash`: updates `last_activity`, checks the signature,
then runs the sliding-window sequencing check. -/
def Session.add_hash (mac : String → String → String) (s : Session) (now : Nat)
    (segment_id : Int) (hash_value signature : String) : Bool × Session :=
  let s0 := { s with last_activity := now }
  match s0.verify_signature mac now segment_id hash_value signature with
  | (false, s1) =>
    let s2 := s1.log_anomaly now
      ("Invalid HMAC signature for segment " ++ toString segment_id)
    (false, s2.freeze "Packet signature verification failed - Possible spoofing")
  | (true, s1) =>
    let expected := s1.segment_count + 1
    if segment_id = expected ∨ segment_id = expected + 1 then
      let s2 := if segment_id = expected then s1
        else s1.log_anomaly now
          ("Packet loss detected (Gap: " ++ toString expected ++ " missing)")
      let s3 := { s2 with
        hash_chain := s2.hash_chain ++
          [{ segment_id := segment_id, hash := hash_value, timestamp := now }],
        segment_count := segment_id }
      (true, s3)
    else if segment_id ≤ s1.segment_count then
      (true, s1)
    else
      let s2 := s1.log_anomaly now
        ("Non-sequential segment: expected " ++ toString expected ++
         ", got " ++ toString segment_id)
      (false, s2.freeze "Segment sequence break detected (Gap > 1)")

/-- The constant `SESSION_TIMEOUT = 3600`. -/
def SESSION_TIMEOUT : Nat := 3600

/-- Embeds `PPAHSession.is_active`: not active unless `status == "active"`; a lazy
timeout check terminates the session when elapsed time exceeds the timeout. -/
def Session.is_active (s : Session) (now : Nat) : Bool × Session :=
  if s.status ≠ "active" then (false, s)
  else if SESSION_TIMEOUT < now - s.last_activity then (false, s.terminate)
  else (true, s)

/-! ## API endpoints of `ppah_server.py` acting on the `SESSIONS` dict -/

/-- The session store `SESSIONS: Dict[str, dict]`. -/
def Store := List (String × Session)

/-- A registered WebAuthn credential, the value stored in
`WEBAUTHN_CREDENTIALS[credential_id]`. -/
structure Credential where
  email : String
  public_key : Option String
  created_at : Nat
  last_used : Option Nat
deriving Repr, DecidableEq

/-- The credential registry `WEBAUTHN_CREDENTIALS: Dict[str, dict]`. -/
def CredStore := List (String × Credential)

/-- Outcome of `POST /api/verify-hash`. -/
inductive VerifyResult where
  /-- The 404 response, session not found. -/
  | notFound
  /-- The 403 response carrying the session status. -/
  | forbidden (status : String)
  /-- the valid=false body carrying the freeze reason and action reauth_required. -/
  | rejected (segment_id : Int) (reason : Option String)
  /-- the valid=true body carrying session_status and total_segments. -/
  | accepted (segment_id : Int) (session_status : String) (total_segments : Int)
deriving Repr, DecidableEq

/-- Embeds `verify_hash` (`POST /api/verify-hash`): looks the session up, rejects
inactive sessions with 403, otherwise runs `add_hash`.  The store is returned
updated because the Python session object is mutated in place. -/
def verify_hash (mac : String → String → String) (store : Store) (now : Nat)
    (session_id : String) (segment_id : Int) (hash signature : String) :
    VerifyResult × Store :=
  match alookup store session_id with
  | none => (.notFound, store)
  | some s =>
    match s.is_active now with
    | (false, s1) => (.forbidden s1.status, aset store session_id s1)
    | (true, s1) =>
      match s1.add_hash mac now segment_id hash signature with
      | (false, s2) =>
        (.rejected segment_id s2.freeze_reason, aset store session_id s2)
      | (true, s2) =>
        (.accepted segment_id s2.status s2.segment_count,
         aset store session_id s2)

/-- Outcome of `POST /api/session/reauth`. -/
inductive ReauthResult where
  /-- The 404 response, session not found. -/
  | notFound
  /-- The 401 response, invalid credential. -/
  | invalidCredential
  /-- the success body carrying session_id and status active. -/
  | success (session_id : String)
deriving Repr, DecidableEq

/-- Embeds `reauthenticate_session` (`POST /api/session/reauth`): requires only that
the supplied `webauthn_credential_id` is a key of `WEBAUTHN_CREDENTIALS`, then
unconditionally sets `status = "active"`, clears `freeze_reason` and refreshes
`last_activity`. -/
def reauthenticate_session (store : Store) (creds : CredStore) (now : Nat)
    (session_id webauthn_credential_id : String) : ReauthResult × Store :=
  match alookup store session_id with
  | none => (.notFound, store)
  | some s =>
    match alookup creds webauthn_credential_id with
    | none => (.invalidCredential, store)
    | some _ =>
      let s1 := { s with status := "active", freeze_reason := none,
                         last_activity := now }
      (.success s1.session_id, aset store session_id s1)

/-! ## Signaling room manager of `src/server/signaling.py`

Connection handles (`WebSocket` objects) are embedded as `Nat`; socket effects
(`accept`, `send_json`, `close`) are recorded in an output list.  Whether
`send_json` raises `RuntimeError` on a stale connection is a parameter
`fails : Nat → Bool` of the operations that send. -/

/-- A JSON message travelling through the signaling channel. -/
inductive Msg where
  /-- the JSON error message ROOM_FULL. -/
  | errorRoomFull
  /-- the JSON message peer_left. -/
  | peerLeft
  /-- An opaque relayed signaling payload. -/
  | payload (data : String)
deriving Repr, DecidableEq

/-- A socket side effect performed by the manager. -/
inductive Effect where
  /-- Effect of `websocket.accept()`. -/
  | accept (conn : Nat)
  /-- Effect of a delivered `connection.send_json(message)`. -/
  | sendJson (conn : Nat) (message : Msg)
  /-- Effect of `websocket.close` with the given code. -/
  | closeConn (conn : Nat) (code : Nat)
deriving Repr, DecidableEq

/-- Embeds `ConnectionManager` and its `active_connections` dictionary. -/
structure ConnectionManager where
  active_connections : List (String × List Nat)
deriving Repr, DecidableEq

/-- The send loop of `ConnectionManager.broadcast`: every member other than
the sender is attempted in order; a `RuntimeError` (`fails c = true`) is
swallowed by `except RuntimeError: pass` and the loop continues. -/
def sendLoop (fails : Nat → Bool) (message : Msg) (sender : Nat) :
    List Nat → List Effect
  | [] => []
  | c :: rest =>
    if c ≠ sender then
      if fails c then sendLoop fails message sender rest
      else .sendJson c message :: sendLoop fails message sender rest
    else sendLoop fails message sender rest

/-- Embeds `ConnectionManager.broadcast`: relays `message` to every member of the
room except `sender`; a missing room is a no-op.  The manager state is not
touched, so only the delivered effects are returned; the function is total in
`fails`, i.e. no send failure escapes the call. -/
def broadcast (fails : Nat → Bool) (m : ConnectionManager) (message : Msg)
    (room_id : String) (sender : Nat) : List Effect :=
  match alookup m.active_connections room_id with
  | none => []
  | some members => sendLoop fails message sender members

/-- Embeds `ConnectionManager.connect`: accepts the socket, creates the room entry if
absent, refuses (ROOM_FULL + close 1008) when the room already has two
members, otherwise appends the connection. -/
def connect (m : ConnectionManager) (websocket : Nat) (room_id : String) :
    Bool × ConnectionManager × List Effect :=
  let m1 : ConnectionManager :=
    match alookup m.active_connections room_id with
    | none => ⟨aset m.active_connections room_id []⟩
    | some _ => m
  let members := (alookup m1.active_connections room_id).getD []
  if 2 ≤ members.length then
    (false, m1,
     [.accept websocket, .sendJson websocket .errorRoomFull,
      .closeConn websocket 1008])
  else
    (true, ⟨aset m1.active_connections room_id (members ++ [websocket])⟩,
     [.accept websocket])

/-- Embeds `ConnectionManager.disconnect`: removes the first occurrence of the
connection, notifies the remaining member with `peer_left`, and deletes the
room entry once empty. -/
def disconnect (fails : Nat → Bool) (m : ConnectionManager) (websocket : Nat)
    (room_id : String) : ConnectionManager × List Effect :=
  match alookup m.active_connections room_id with
  | none => (m, [])
  | some members =>
    let (m1, effects) :=
      if websocket ∈ members then
        let m1 : ConnectionManager :=
          ⟨aset m.active_connections room_id (members.erase websocket)⟩
        (m1, broadcast fails m1 .peerLeft room_id websocket)
      else (m, [])
    let members1 := (alookup m1.active_connections room_id).getD []
    if members1 = [] then (⟨adel m1.active_connections room_id⟩, effects)
    else (m1, effects)

/-! ## Spec-modelled trust-score engine

`src/server/models.py` declares the signature-and-trust-score revision of the
session (`VerifyHashRequest` carries `trust_score`; `PPAHSession` carries
`last_trust_score` and `freeze_reason`), but the engine that applies the
trust-score policy to a report is not under `src/` — only these declarations
are.  The engine is therefore modelled from the spec (§4.1–§4.3). -/

/-- Session status of the trust-score revision (spec §3/§4.1). -/
inductive MStatus where
  | active
  | frozen
  | terminated
deriving Repr, DecidableEq

/-- Modelled from the spec: the reason a session is frozen.  Spec §4.1
distinguishes the *soft* trust-score freeze (self-healing) from the *hard*
signature and sequencing freezes ("signature failures and sequence-gap
failures are NOT auto-recoverable by a later good report; only trust-score
freezes are"). -/
inductive MFreezeReason where
  /-- Soft freeze: "formatted low-score message" (spec §4.3). -/
  | lowScore (score : Nat)
  /-- Hard freeze: "signature verification failed" (spec §4.1). -/
  | badSignature
  /-- Hard freeze: sequence gap > 1 (spec §4.1/§4.2). -/
  | sequenceBreak
deriving Repr, DecidableEq

/-- A freeze reason that is not recoverable by trust score alone. -/
def MFreezeReason.isHard : MFreezeReason → Bool
  | .lowScore _ => false
  | .badSignature => true
  | .sequenceBreak => true

/-- Modelled from the spec: the Session Record of the trust-score revision,
matching the fields declared by `models.py` (`PPAHSession.__init__`: status,
`freeze_reason`, `last_trust_score` initialised to 100) together with the
sequencing state of spec §3. -/
structure MSession where
  session_id : String
  email : String
  webauthn_id : String
  session_key : String
  status : MStatus
  freeze_reason : Option MFreezeReason
  last_trust_score : Nat
  segment_count : Int
  hash_chain : List HashEntry
  last_activity : Nat
deriving Repr, DecidableEq

/-- Modelled from the spec, §4.3: the pure trust-score policy
`(current_status, reported_score) → (new_status, new_freeze_reason)`:
score < 40 freezes regardless of previous status; score ≥ 40 recovers a
frozen session and leaves an active one unchanged. -/
def trust_score_policy (current_status : MStatus)
    (current_reason : Option MFreezeReason) (score : Nat) :
    MStatus × Option MFreezeReason :=
  if score < 40 then (.frozen, some (.lowScore score))
  else match current_status with
    | .frozen => (.active, none)
    | st => (st, current_reason)

/-- Modelled from the spec, §4.2: the sequencing window verdict. -/
inductive SeqVerdict where
  | inOrder
  | gapTolerated
  | staleIgnored
  | reject
deriving Repr, DecidableEq

/-- Modelled from the spec, §4.2: the sequencing check. -/
def sequencing_check (segment_count segment_id : Int) : SeqVerdict :=
  if segment_id = segment_count + 1 then .inOrder
  else if segment_id = segment_count + 2 then .gapTolerated
  else if segment_id ≤ segment_count then .staleIgnored
  else .reject

/-- Modelled from the spec: the decision returned by `verify_and_record`. -/
inductive MDecision where
  /-- Unknown or terminated session (spec §4.1: a terminated session is
  treated as "session not found"). -/
  | notFound
  /-- The session timed out on this access. -/
  | terminated
  /-- Decision `Rejected(reason, action=reauth_required)`. -/
  | rejected (reason : MFreezeReason)
  /-- Decision `Accepted(status)`. -/
  | accepted (status : MStatus)
deriving Repr, DecidableEq

/-- Modelled from the spec: the signed message of the signature-aware
revision, the concatenation of session id, segment id, hash value and trust
score (spec §4.2 step 1). -/
def msigMessage (session_id : String) (segment_id : Int)
    (hash_value : String) (trust_score : Nat) : String :=
  session_id ++ toString segment_id ++ hash_value ++ toString trust_score

/-- Modelled from the spec, §4.1 `verify_and_record`: the engine of the
trust-score revision, absent from `src/`.  Reports against terminated
sessions are "session not found"; a lazy timeout terminates; a signature
failure hard-freezes; the sequencing window accepts in-order and gap-one
reports (appending to the chain and advancing the count), ignores stale ones
as a no-op, and hard-freezes on a larger gap.  On a chain-advancing accept the
trust-score policy of §4.3 runs, except that a *hard* freeze is not
auto-recoverable by score (spec §4.1 design rationale and §9); `last_activity`
is refreshed and `last_trust_score` is overwritten on every path that applies
the policy. -/
def verify_and_record (mac : String → String → String) (s : MSession)
    (now : Nat) (segment_id : Int) (hash_value signature : String)
    (trust_score : Nat) : MDecision × MSession :=
  if s.status = .terminated then (.notFound, s)
  else if SESSION_TIMEOUT < now - s.last_activity then
    (.terminated, { s with status := .terminated })
  else
    let s0 := { s with last_activity := now }
    if signature ≠ mac s0.session_key
        (msigMessage s0.session_id segment_id hash_value trust_score) then
      (.rejected .badSignature,
       { s0 with status := .frozen, freeze_reason := some .badSignature })
    else
      match sequencing_check s0.segment_count segment_id with
      | .reject =>
        (.rejected .sequenceBreak,
         { s0 with status := .frozen, freeze_reason := some .sequenceBreak })
      | .staleIgnored => (.accepted s0.status, s0)
      | _ =>
        let entry : HashEntry :=
          { segment_id := segment_id, hash := hash_value, timestamp := now }
        let s1 := { s0 with
          hash_chain := s0.hash_chain ++ [entry],
          segment_count := segment_id }
        let (st, fr) :=
          if (s1.freeze_reason.map MFreezeReason.isHard).getD false then
            (s1.status, s1.freeze_reason)
          else trust_score_policy s1.status s1.freeze_reason trust_score
        let s2 := { s1 with status := st, freeze_reason := fr,
                            last_trust_score := trust_score }
        (.accepted st, s2)

/-! ## Claim theorems -/

/-- A concrete keyed MAC used to instantiate witnesses (the theorems hold for
every `mac`). -/
def testMac (key message : String) : String := key ++ "/" ++ message

/-- A concrete session used to instantiate witnesses. -/
def baseSession : Session :=
  { session_id := "sid", email := some "alice@example.com", created_at := 0,
    last_activity := 0, status := "active", segment_count := 0, hash_chain := [],
    freeze_reason := none, session_key := some "key", camera_fingerprint := none,
    camera_fingerprint_locked := false, anomaly_log := [] }

/-- C2: the signature check of `PPAHSession.verify_signature` accepts iff the
supplied signature equals the keyed MAC (HMAC-SHA256 hex digest) of the exact
concatenation of session id, segment id and hash value under the session key;
absence of a session key makes it fail closed, and any failed check is a hard
failure in `add_hash`: the report is rejected and the session is frozen with
the signature-failure reason. -/
theorem C2_signature_verification (mac : String → String → String) (s : Session)
    (now : Nat) (segment_id : Int) (hash_value signature : String) :
    ((s.verify_signature mac now segment_id hash_value signature).1 = true ↔
      keyTruthy s.session_key = true ∧
      signature = mac (s.session_key.getD "")
        (sigMessage s.session_id segment_id hash_value))
    ∧ (s.session_key = none →
        (s.verify_signature mac now segment_id hash_value signature).1 = false)
    ∧ ((s.verify_signature mac now segment_id hash_value signature).1 = false →
        (s.add_hash mac now segment_id hash_value signature).1 = false ∧
        (s.add_hash mac now segment_id hash_value signature).2.status = "frozen" ∧
        (s.add_hash mac now segment_id hash_value signature).2.freeze_reason =
          some "Packet signature verification failed - Possible spoofing") := by
  have hverify : ∀ t : Session, t.session_key = s.session_key →
      t.session_id = s.session_id →
      (t.verify_signature mac now segment_id hash_value signature).1 =
      (s.verify_signature mac now segment_id hash_value signature).1 := by
    intro t hk hi
    simp only [Session.verify_signature, hk, hi]
    by_cases hb : keyTruthy s.session_key = false <;> simp [hb]
  refine ⟨?_, ?_, ?_⟩
  · by_cases hk : keyTruthy s.session_key
    · constructor
      · intro h
        refine ⟨hk, ?_⟩
        simp [Session.verify_signature, hk] at h
        exact h.symm
      · intro ⟨_, h⟩
        simp [Session.verify_signature, hk, h]
    · simp [Session.verify_signature, hk]
  · intro h
    simp [Session.verify_signature, keyTruthy, h]
  · intro h
    have h0 : (Session.verify_signature mac { s with last_activity := now }
        now segment_id hash_value signature).1 = false := by
      rw [hverify { s with last_activity := now } rfl rfl]; exact h
    simp only [Session.add_hash]
    rcases hres : Session.verify_signature mac { s with last_activity := now }
        now segment_id hash_value signature with ⟨b, s1⟩
    rw [hres] at h0
    simp at h0
    subst h0
    simp [Session.freeze, Session.log_anomaly]

/-- Witness for C2 at a concrete input: the base session with key "key"
rejects a wrong signature, accepts the correct MAC, and the failed check
freezes the session. -/
theorem C2_signature_verification_witness :
    (baseSession.verify_signature testMac 5 1 "h1" "bad").1 = false ∧
    (baseSession.verify_signature testMac 5 1 "h1" (testMac "key" "sid1h1")).1 = true ∧
    (baseSession.add_hash testMac 5 1 "h1" "bad").1 = false ∧
    (baseSession.add_hash testMac 5 1 "h1" "bad").2.status = "frozen" := by
  have h := C2_signature_verification testMac baseSession 5 1 "h1" "bad"
  have h2 := C2_signature_verification testMac baseSession 5 1 "h1"
    (testMac "key" "sid1h1")
  have hfalse : (baseSession.verify_signature testMac 5 1 "h1" "bad").1 = false := by
    rcases hb : (baseSession.verify_signature testMac 5 1 "h1" "bad").1 with _ | _
    · rfl
    · exfalso
      have := h.1.mp hb
      revert this
      decide
  have hhard := h.2.2 hfalse
  refine ⟨hfalse, ?_, hhard.1, hhard.2.1⟩
  exact h2.1.mpr (by decide)

/-- A concrete session that has already accepted three segments, used to
instantiate witnesses about stale resubmission. -/
def staleSession : Session := { baseSession with segment_count := 3 }

/-- C6: resubmitting a report for a segment id at or below the current
segment count with a valid signature is an idempotent no-op: `verify_hash`
answers valid=true and the stored session keeps its `hash_chain`,
`segment_count`, `status` and `freeze_reason`, only `last_activity` moving. -/
theorem C6_stale_resubmission_idempotent (mac : String → String → String)
    (store : Store) (now : Nat) (session_id : String) (segment_id : Int)
    (hash_value signature : String) (s : Session)
    (hs : alookup store session_id = some s)
    (hact : s.status = "active")
    (htime : now - s.last_activity ≤ SESSION_TIMEOUT)
    (hkey : keyTruthy s.session_key = true)
    (hsig : signature = mac (s.session_key.getD "")
      (sigMessage s.session_id segment_id hash_value))
    (hstale : segment_id ≤ s.segment_count) :
    verify_hash mac store now session_id segment_id hash_value signature =
      (.accepted segment_id "active" s.segment_count,
       aset store session_id { s with last_activity := now }) := by
  have hia : s.is_active now = (true, s) := by
    simp [Session.is_active, hact, Nat.not_lt.mpr htime]
  have hvs : Session.verify_signature mac { s with last_activity := now } now
      segment_id hash_value signature = (true, { s with last_activity := now }) := by
    simp [Session.verify_signature, hkey, hsig]
  have hadd : s.add_hash mac now segment_id hash_value signature =
      (true, { s with last_activity := now }) := by
    simp only [Session.add_hash, hvs]
    have h1 : ¬ (segment_id = s.segment_count + 1 ∨
        segment_id = s.segment_count + 1 + 1) := by omega
    simp [h1, hstale]
  simp [verify_hash, hs, hia, hadd, hact]

/-- Witness for C6 at a concrete input: resubmitting segment 2 when the count
is 3 returns valid=true and leaves everything but `last_activity` unchanged. -/
theorem C6_stale_resubmission_idempotent_witness :
    verify_hash testMac [("sid", staleSession)] 10 "sid" 2 "h2"
      (testMac "key" (sigMessage "sid" 2 "h2")) =
    (.accepted 2 "active" 3,
     [("sid", { staleSession with last_activity := 10 })]) := by
  have h := C6_stale_resubmission_idempotent testMac [("sid", staleSession)]
    10 "sid" 2 "h2" (testMac "key" (sigMessage "sid" 2 "h2")) staleSession
    (by decide) (by decide) (by decide) (by decide) (by decide) (by decide)
  rw [h]
  rfl

/-- C3: a validly signed report whose segment id exceeds the current count by
more than two is rejected and hard-freezes the session with the
sequence-break reason, leaving `segment_count` and `hash_chain` untouched;
the freeze is not recoverable: in `ppah_server.py` every further report
against a frozen session is answered 403 with the session unchanged, and in
the spec-modelled trust-score engine a session hard-frozen by a sequence
break stays frozen on any further report, whatever its trust score. -/
theorem C3_sequence_break_freeze (mac : String → String → String)
    (store : Store) (now : Nat) (session_id : String) (segment_id : Int)
    (hash_value signature : String) (s : Session)
    (hs : alookup store session_id = some s)
    (hact : s.status = "active")
    (htime : now - s.last_activity ≤ SESSION_TIMEOUT)
    (hkey : keyTruthy s.session_key = true)
    (hsig : signature = mac (s.session_key.getD "")
      (sigMessage s.session_id segment_id hash_value))
    (hgap : s.segment_count + 2 < segment_id) :
    ((verify_hash mac store now session_id segment_id hash_value signature).1 =
        .rejected segment_id (some "Segment sequence break detected (Gap > 1)")
      ∧ (alookup (verify_hash mac store now session_id segment_id hash_value
          signature).2 session_id).map Session.status = some "frozen"
      ∧ (alookup (verify_hash mac store now session_id segment_id hash_value
          signature).2 session_id).map Session.freeze_reason =
          some (some "Segment sequence break detected (Gap > 1)")
      ∧ (alookup (verify_hash mac store now session_id segment_id hash_value
          signature).2 session_id).map Session.segment_count =
          some s.segment_count
      ∧ (alookup (verify_hash mac store now session_id segment_id hash_value
          signature).2 session_id).map Session.hash_chain = some s.hash_chain)
    ∧ (∀ (store₂ : Store) (now₂ : Nat) (sid₂ : String) (seg₂ : Int)
        (h₂ sig₂ : String) (t : Session),
        alookup store₂ sid₂ = some t → t.status = "frozen" →
        verify_hash mac store₂ now₂ sid₂ seg₂ h₂ sig₂ =
          (.forbidden "frozen", aset store₂ sid₂ t))
    ∧ (∀ (t : MSession) (now₂ : Nat) (seg₂ : Int) (h₂ sig₂ : String)
        (score : Nat),
        t.status = .frozen → t.freeze_reason = some .sequenceBreak →
        now₂ - t.last_activity ≤ SESSION_TIMEOUT →
        (verify_and_record mac t now₂ seg₂ h₂ sig₂ score).2.status = .frozen) := by
  refine ⟨?_, ?_, ?_⟩
  · have hia : s.is_active now = (true, s) := by
      simp [Session.is_active, hact, Nat.not_lt.mpr htime]
    have hvs : Session.verify_signature mac { s with last_activity := now } now
        segment_id hash_value signature =
        (true, { s with last_activity := now }) := by
      simp [Session.verify_signature, hkey, hsig]
    have h1 : ¬ (segment_id = s.segment_count + 1 ∨
        segment_id = s.segment_count + 1 + 1) := by omega
    have h2 : ¬ segment_id ≤ s.segment_count := by omega
    have hadd : s.add_hash mac now segment_id hash_value signature =
        (false, (({ s with last_activity := now }).log_anomaly now
          ("Non-sequential segment: expected " ++
            toString (s.segment_count + 1) ++ ", got " ++ toString segment_id)).freeze
          "Segment sequence break detected (Gap > 1)") := by
      simp only [Session.add_hash, hvs]
      simp [h1, h2]
    simp [verify_hash, hs, hia, hadd, alookup_aset, Session.freeze,
      Session.log_anomaly]
  · intro store₂ now₂ sid₂ seg₂ h₂ sig₂ t ht hfroz
    have hia : t.is_active now₂ = (false, t) := by
      simp [Session.is_active, hfroz]
    simp [verify_hash, ht, hia, hfroz]
  · intro t now₂ seg₂ h₂ sig₂ score hst hfr htime₂
    have hterm : ¬ t.status = MStatus.terminated := by simp [hst]
    have ht2 : ¬ SESSION_TIMEOUT < now₂ - t.last_activity := Nat.not_lt.mpr htime₂
    simp only [verify_and_record, if_neg hterm, if_neg ht2]
    by_cases hsig₂ : sig₂ ≠ mac t.session_key
        (msigMessage t.session_id seg₂ h₂ score)
    · rw [if_pos hsig₂]
    · rw [if_neg hsig₂]
      rcases hsc : sequencing_check t.segment_count seg₂ with _ | _ | _ | _
      · simp [hfr, MFreezeReason.isHard, hst]
      · simp [hfr, MFreezeReason.isHard, hst]
      · simp [hst]
      · simp

/-- A concrete session with one accepted segment, used to replay the gap
scenario of the spec (submit segment 5 when the count is 1). -/
def gapSession : Session := { baseSession with segment_count := 1 }

/-- A concrete session frozen by a sequence break. -/
def frozenSession : Session :=
  { baseSession with
    status := "frozen"
    freeze_reason := some "Segment sequence break detected (Gap > 1)" }

/-- A concrete spec-modelled session hard-frozen by a sequence break. -/
def mfrozenSeq : MSession :=
  { session_id := "sid", email := "alice@example.com", webauthn_id := "wid",
    session_key := "key", status := .frozen,
    freeze_reason := some .sequenceBreak, last_trust_score := 50,
    segment_count := 1, hash_chain := [], last_activity := 0 }

/-- Witness for C3 at concrete inputs: segment 5 submitted at count 1 is
rejected and freezes with the count still 1; any report against the frozen
session is answered 403; the hard-frozen spec-modelled session stays frozen
on a score-95 report. -/
theorem C3_sequence_break_freeze_witness :
    ((verify_hash testMac [("sid", gapSession)] 10 "sid" 5 "h5"
        (testMac "key" (sigMessage "sid" 5 "h5"))).1 =
      .rejected 5 (some "Segment sequence break detected (Gap > 1)"))
    ∧ ((alookup (verify_hash testMac [("sid", gapSession)] 10 "sid" 5 "h5"
        (testMac "key" (sigMessage "sid" 5 "h5"))).2 "sid").map
        Session.segment_count = some 1)
    ∧ (verify_hash testMac [("sid", frozenSession)] 10 "sid" 6 "h6" "x" =
        (.forbidden "frozen", [("sid", frozenSession)]))
    ∧ ((verify_and_record testMac mfrozenSeq 10 2 "h2"
        (testMac "key" (msigMessage "sid" 2 "h2" 95)) 95).2.status =
        .frozen) := by
  have h := C3_sequence_break_freeze testMac [("sid", gapSession)] 10 "sid" 5
    "h5" (testMac "key" (sigMessage "sid" 5 "h5")) gapSession (by decide)
    (by decide) (by decide) (by decide) (by decide) (by decide)
  refine ⟨h.1.1, ?_, ?_, ?_⟩
  · have hc := h.1.2.2.2.1
    simpa using hc
  · have h2 := h.2.1 [("sid", frozenSession)] 10 "sid" 6 "h6" "x"
      frozenSession (by decide) (by decide)
    rw [h2]
    rfl
  · exact h.2.2 mfrozenSeq 10 2 "h2"
      (testMac "key" (msigMessage "sid" 2 "h2" 95)) 95 (by decide) (by decide)
      (by decide)

/-- C7 counterexample: a frozen session whose elapsed time far exceeds the
3600-second timeout is NOT transitioned to terminated by an access attempt —
`is_active` returns before the timeout check whenever the status is not
"active", so the session stays frozen. -/
theorem C7_frozen_timeout_counterexample :
    frozenSession.status = "frozen"
    ∧ SESSION_TIMEOUT < 4000 - frozenSession.last_activity
    ∧ (frozenSession.is_active 4000).2.status = "frozen"
    ∧ ¬ (frozenSession.is_active 4000).2.status = "terminated" := by
  decide

/-- C7 amended: only a session whose status is active transitions to
terminated when the elapsed time since `last_activity` exceeds the session
timeout (3600 seconds), evaluated lazily inside `is_active` on each access
attempt; a frozen session is reported inactive but keeps its frozen status,
never becoming terminated through the timeout path. -/
theorem C7_lazy_timeout_active_only (s : Session) (now : Nat) :
    (s.status = "active" → SESSION_TIMEOUT < now - s.last_activity →
      s.is_active now = (false, s.terminate) ∧
      (s.is_active now).2.status = "terminated")
    ∧ (s.status = "frozen" → s.is_active now = (false, s)) := by
  constructor
  · intro hact ht
    have h : s.is_active now = (false, s.terminate) := by
      simp [Session.is_active, hact, ht]
    exact ⟨h, by rw [h]; simp [Session.terminate]⟩
  · intro hfroz
    simp [Session.is_active, hfroz]

/-- Witness for C7 amended, at concrete inputs: the timed-out active session
terminates, the timed-out frozen session stays frozen. -/
theorem C7_lazy_timeout_active_only_witness :
    (baseSession.is_active 4000).2.status = "terminated"
    ∧ frozenSession.is_active 4000 = (false, frozenSession) := by
  have h1 := (C7_lazy_timeout_active_only baseSession 4000).1 (by decide)
    (by decide)
  have h2 := (C7_lazy_timeout_active_only frozenSession 4000).2 (by decide)
  exact ⟨h1.2, h2⟩

/-- A concrete terminated session. -/
def terminatedSession : Session := { baseSession with status := "terminated" }

/-- A concrete registered credential whose owner differs from the session
owner. -/
def testCred : Credential :=
  { email := "mallory@example.com", public_key := some "pk", created_at := 0,
    last_used := none }

/-- C4 counterexample: the terminated status is NOT absorbing across all
engine operations — `reauthenticate_session` on a terminated session with any
registered credential sets the status back to "active". -/
theorem C4_terminated_reauth_counterexample :
    terminatedSession.status = "terminated"
    ∧ (alookup (reauthenticate_session [("sid", terminatedSession)]
        [("cred", testCred)] 50 "sid" "cred").2 "sid").map Session.status =
        some "active" := by
  decide

/-- C4 amended: terminated is absorbing under report verification — every
further report against a terminated session is answered 403 with the session
left unchanged in the store (rejected, not recreated), and `is_active` never
revives it — but the re-authentication endpoint, given any registered
credential, does set the session back to active. -/
theorem C4_terminated_absorbing_for_reports (mac : String → String → String)
    (store : Store) (creds : CredStore) (now : Nat) (session_id : String)
    (segment_id : Int) (hash_value signature : String) (s : Session)
    (hs : alookup store session_id = some s)
    (hterm : s.status = "terminated") :
    (verify_hash mac store now session_id segment_id hash_value signature =
      (.forbidden "terminated", aset store session_id s))
    ∧ (alookup (verify_hash mac store now session_id segment_id hash_value
        signature).2 session_id = some s)
    ∧ s.is_active now = (false, s)
    ∧ (∀ cred_id c, alookup creds cred_id = some c →
        (alookup (reauthenticate_session store creds now session_id cred_id).2
          session_id).map Session.status = some "active") := by
  have hia : s.is_active now = (false, s) := by
    simp [Session.is_active, hterm]
  have hvh : verify_hash mac store now session_id segment_id hash_value
      signature = (.forbidden "terminated", aset store session_id s) := by
    simp [verify_hash, hs, hia, hterm]
  refine ⟨hvh, ?_, hia, ?_⟩
  · rw [hvh]
    simp [alookup_aset]
  · intro cred_id c hc
    simp [reauthenticate_session, hs, hc, alookup_aset]

/-- Witness for C4 amended, at concrete inputs: a report against the
terminated session is answered 403 and the session survives unchanged, while
re-authentication reactivates it. -/
theorem C4_terminated_absorbing_for_reports_witness :
    (verify_hash testMac [("sid", terminatedSession)] 50 "sid" 1 "h1" "x" =
      (.forbidden "terminated", [("sid", terminatedSession)]))
    ∧ (alookup (reauthenticate_session [("sid", terminatedSession)]
        [("cred", testCred)] 50 "sid" "cred").2 "sid").map Session.status =
        some "active" := by
  have h := C4_terminated_absorbing_for_reports testMac
    [("sid", terminatedSession)] [("cred", testCred)] 50 "sid" 1 "h1" "x"
    terminatedSession (by decide) (by decide)
  refine ⟨?_, h.2.2.2 "cred" testCred (by decide)⟩
  rw [h.1]
  rfl

/-- C1: in the spec-modelled trust-score engine, a session soft-frozen by a
low trust score recovers automatically: a subsequent report that passes the
signature check and falls in the sequencing window and carries trust score at
least 40 is accepted, flips the status from frozen back to active and clears
`freeze_reason` — within the single `verify_and_record` call, with no
re-authentication step involved. -/
theorem C1_soft_freeze_auto_recovery (mac : String → String → String)
    (s : MSession) (now : Nat) (segment_id : Int) (hash_value : String)
    (score k : Nat)
    (hst : s.status = .frozen)
    (hfr : s.freeze_reason = some (.lowScore k))
    (htime : now - s.last_activity ≤ SESSION_TIMEOUT)
    (hwin : segment_id = s.segment_count + 1 ∨ segment_id = s.segment_count + 2)
    (hscore : 40 ≤ score) :
    ((verify_and_record mac s now segment_id hash_value
        (mac s.session_key (msigMessage s.session_id segment_id hash_value
          score)) score).1 = .accepted .active)
    ∧ ((verify_and_record mac s now segment_id hash_value
        (mac s.session_key (msigMessage s.session_id segment_id hash_value
          score)) score).2.status = .active)
    ∧ ((verify_and_record mac s now segment_id hash_value
        (mac s.session_key (msigMessage s.session_id segment_id hash_value
          score)) score).2.freeze_reason = none) := by
  have hterm : ¬ s.status = MStatus.terminated := by simp [hst]
  have ht2 : ¬ SESSION_TIMEOUT < now - s.last_activity := Nat.not_lt.mpr htime
  have hsigeq : ¬ (mac s.session_key
      (msigMessage s.session_id segment_id hash_value score) ≠
      mac s.session_key (msigMessage s.session_id segment_id hash_value
        score)) := by simp
  have hpol : trust_score_policy MStatus.frozen
      (some (MFreezeReason.lowScore k)) score = (.active, none) := by
    simp [trust_score_policy, Nat.not_lt.mpr hscore]
  have hsc : sequencing_check s.segment_count segment_id = SeqVerdict.inOrder ∨
      sequencing_check s.segment_count segment_id = SeqVerdict.gapTolerated := by
    rcases hwin with h | h
    · left
      simp [sequencing_check, h]
    · right
      have hne : ¬ (segment_id = s.segment_count + 1) := by omega
      simp [sequencing_check, hne, h]
  simp only [verify_and_record, if_neg hterm, if_neg ht2, if_neg hsigeq]
  rcases hsc with h | h <;> rw [h] <;>
    simp [hst, hfr, MFreezeReason.isHard, hpol]

/-- A concrete spec-modelled session soft-frozen by a low trust score. -/
def msoftFrozen : MSession :=
  { mfrozenSeq with freeze_reason := some (.lowScore 20) }

/-- Witness for C1 at a concrete input: the session soft-frozen at score 20
recovers on an in-order, correctly signed report with score 85. -/
theorem C1_soft_freeze_auto_recovery_witness :
    ((verify_and_record testMac msoftFrozen 10 2 "h2"
        (testMac "key" (msigMessage "sid" 2 "h2" 85)) 85).1 =
      .accepted .active)
    ∧ ((verify_and_record testMac msoftFrozen 10 2 "h2"
        (testMac "key" (msigMessage "sid" 2 "h2" 85)) 85).2.status = .active)
    ∧ ((verify_and_record testMac msoftFrozen 10 2 "h2"
        (testMac "key" (msigMessage "sid" 2 "h2" 85)) 85).2.freeze_reason =
      none) := by
  exact C1_soft_freeze_auto_recovery testMac msoftFrozen 10 2 "h2" 85 20
    (by decide) (by decide) (by decide) (Or.inl (by decide)) (by decide)

/-- C5: the spec-modelled trust-score policy maps a score below 40 to frozen
with the low-score reason regardless of the previous status; a score of at
least 40 recovers a frozen session and clears the reason, and leaves an
active session unchanged; and the engine overwrites `last_trust_score` with
the reported value on every policy application, whatever the transition
outcome. -/
theorem C5_trust_score_policy_mapping :
    (∀ (st : MStatus) (fr : Option MFreezeReason) (score : Nat), score < 40 →
      trust_score_policy st fr score = (.frozen, some (.lowScore score)))
    ∧ (∀ (fr : Option MFreezeReason) (score : Nat), 40 ≤ score →
      trust_score_policy .frozen fr score = (.active, none))
    ∧ (∀ (fr : Option MFreezeReason) (score : Nat), 40 ≤ score →
      trust_score_policy .active fr score = (.active, fr))
    ∧ (∀ (mac : String → String → String) (s : MSession) (now : Nat)
        (segment_id : Int) (hash_value : String) (score : Nat),
        s.status ≠ .terminated →
        now - s.last_activity ≤ SESSION_TIMEOUT →
        (segment_id = s.segment_count + 1 ∨
          segment_id = s.segment_count + 2) →
        (verify_and_record mac s now segment_id hash_value
          (mac s.session_key (msigMessage s.session_id segment_id hash_value
            score)) score).2.last_trust_score = score) := by
  refine ⟨?_, ?_, ?_, ?_⟩
  · intro st fr score hlt
    simp [trust_score_policy, hlt]
  · intro fr score hge
    simp [trust_score_policy, Nat.not_lt.mpr hge]
  · intro fr score hge
    simp [trust_score_policy, Nat.not_lt.mpr hge]
  · intro mac s now segment_id hash_value score hterm htime hwin
    have ht2 : ¬ SESSION_TIMEOUT < now - s.last_activity := Nat.not_lt.mpr htime
    have hsigeq : ¬ (mac s.session_key
        (msigMessage s.session_id segment_id hash_value score) ≠
        mac s.session_key (msigMessage s.session_id segment_id hash_value
          score)) := by simp
    have hsc : sequencing_check s.segment_count segment_id =
        SeqVerdict.inOrder ∨
        sequencing_check s.segment_count segment_id =
        SeqVerdict.gapTolerated := by
      rcases hwin with h | h
      · left
        simp [sequencing_check, h]
      · right
        have hne : ¬ (segment_id = s.segment_count + 1) := by omega
        simp [sequencing_check, hne, h]
    simp only [verify_and_record, if_neg hterm, if_neg ht2, if_neg hsigeq]
    rcases hsc with h | h <;> rw [h]

/-- Witness for C5 at concrete inputs: score 20 freezes an active session,
score 85 recovers a frozen one and leaves an active one unchanged, and the
engine stores the reported score 20 even while freezing. -/
theorem C5_trust_score_policy_mapping_witness :
    trust_score_policy .active none 20 = (.frozen, some (.lowScore 20))
    ∧ trust_score_policy .frozen (some (.lowScore 20)) 85 = (.active, none)
    ∧ trust_score_policy .active none 85 = (.active, none)
    ∧ (verify_and_record testMac msoftFrozen 10 2 "h2"
        (testMac "key" (msigMessage "sid" 2 "h2" 20)) 20).2.last_trust_score =
      20 := by
  have h := C5_trust_score_policy_mapping
  exact ⟨h.1 .active none 20 (by decide), h.2.1 (some (.lowScore 20)) 85
    (by decide), h.2.2.1 none 85 (by decide),
    h.2.2.2 testMac msoftFrozen 10 2 "h2" 20 (by decide) (by decide)
      (Or.inl (by decide))⟩

/-- C10: `reauthenticate_session` reactivates any stored session — whatever
its status or freeze reason — whenever the supplied credential id is present
in the registry, setting the status to active, clearing `freeze_reason` and
refreshing `last_activity`; the credential value (in particular its owner
email) never constrains the outcome, so ownership is not checked. -/
theorem C10_reauth_ignores_ownership (store : Store) (creds : CredStore)
    (now : Nat) (session_id cred_id : String) (s : Session) (c : Credential)
    (hs : alookup store session_id = some s)
    (hc : alookup creds cred_id = some c) :
    reauthenticate_session store creds now session_id cred_id =
      (.success s.session_id,
       aset store session_id
         { s with status := "active", freeze_reason := none,
                  last_activity := now }) := by
  simp [reauthenticate_session, hs, hc]

/-- Witness for C10 at a concrete input: a session owned by alice, frozen by
a sequence break, is reactivated by a credential registered to mallory. -/
theorem C10_reauth_ignores_ownership_witness :
    frozenSession.email = some "alice@example.com"
    ∧ testCred.email = "mallory@example.com"
    ∧ reauthenticate_session [("sid", frozenSession)] [("cred", testCred)] 99
        "sid" "cred" =
      (.success "sid",
       [("sid", { frozenSession with
                  status := "active"
                  freeze_reason := none
                  last_activity := 99 })]) := by
  refine ⟨rfl, rfl, ?_⟩
  have h := C10_reauth_ignores_ownership [("sid", frozenSession)]
    [("cred", testCred)] 99 "sid" "cred" frozenSession testCred (by decide)
    (by decide)
  rw [h]
  rfl

/-- The send loop of `broadcast` delivers exactly to the non-sender members
whose sends do not raise, in room order. -/
theorem sendLoop_eq (fails : Nat → Bool) (message : Msg) (sender : Nat)
    (members : List Nat) :
    sendLoop fails message sender members =
      (members.filter (fun c => decide (c ≠ sender) && !fails c)).map
        (fun c => Effect.sendJson c message) := by
  induction members with
  | nil => rfl
  | cons c rest ih =>
    by_cases h1 : c = sender
    · simp [sendLoop, h1, ih]
    · by_cases h2 : fails c
      · simp [sendLoop, h1, h2, ih]
      · simp [sendLoop, h1, h2, ih]

/-- C9: `broadcast` forwards the message unmodified to every member of the
room except the sender; a failing send is swallowed and never prevents
delivery to the remaining members, and the call is total for every failure
pattern, so no send error escapes it. -/
theorem C9_relay_best_effort (fails : Nat → Bool) (m : ConnectionManager)
    (message : Msg) (room_id : String) (sender : Nat) (members : List Nat)
    (hm : alookup m.active_connections room_id = some members) :
    (broadcast fails m message room_id sender =
      (members.filter (fun c => decide (c ≠ sender) && !fails c)).map
        (fun c => Effect.sendJson c message))
    ∧ (∀ c, c ∈ members → c ≠ sender → fails c = false →
        Effect.sendJson c message ∈
          broadcast fails m message room_id sender) := by
  have hb : broadcast fails m message room_id sender =
      sendLoop fails message sender members := by
    simp [broadcast, hm]
  constructor
  · rw [hb, sendLoop_eq]
  · intro c hc hne hok
    rw [hb, sendLoop_eq]
    simp only [List.mem_map, List.mem_filter]
    exact ⟨c, ⟨hc, by simp [hne, hok]⟩, rfl⟩

/-- Witness for C9 at a concrete input: relaying from sender 1 in a room with
members 1, 2, 3 where the send to 2 raises still delivers the unmodified
payload to 3 and nothing else. -/
theorem C9_relay_best_effort_witness :
    (broadcast (fun c => decide (c = 2)) ⟨[("r", [1, 2, 3])]⟩
        (.payload "offer") "r" 1 = [Effect.sendJson 3 (.payload "offer")])
    ∧ Effect.sendJson 3 (.payload "offer") ∈
        broadcast (fun c => decide (c = 2)) ⟨[("r", [1, 2, 3])]⟩
          (.payload "offer") "r" 1 := by
  have h := C9_relay_best_effort (fun c => decide (c = 2))
    ⟨[("r", [1, 2, 3])]⟩ (.payload "offer") "r" 1 [1, 2, 3] (by decide)
  refine ⟨?_, h.2 3 (by decide) (by decide) (by decide)⟩
  rw [h.1]
  rfl

/-- A membership-changing operation on the signaling manager. -/
inductive RoomOp where
  | connectOp (websocket : Nat) (room_id : String)
  | disconnectOp (fails : Nat → Bool) (websocket : Nat) (room_id : String)

/-- Applies one operation to the manager, keeping only the state. -/
def applyOp (m : ConnectionManager) : RoomOp → ConnectionManager
  | .connectOp ws r => (connect m ws r).2.1
  | .disconnectOp fails ws r => (disconnect fails m ws r).1

/-- The manager reached from the initial empty manager by a sequence of
socket events. -/
def simulate (ops : List RoomOp) : ConnectionManager :=
  ops.foldl applyOp ⟨[]⟩

/-- Capacity bound: every room holds at most two members. -/
def capBound (m : ConnectionManager) : Prop :=
  ∀ r ms, alookup m.active_connections r = some ms → ms.length ≤ 2

theorem capBound_connect (m : ConnectionManager) (ws : Nat) (r : String)
    (h : capBound m) : capBound (connect m ws r).2.1 := by
  intro r' ms' hms'
  rcases hl : alookup m.active_connections r with _ | ms
  · simp only [connect, hl] at hms'
    rw [show alookup (aset m.active_connections r []) r = some [] by
      simp [alookup_aset]] at hms'
    simp only [Option.getD_some, List.length_nil] at hms'
    rw [if_neg (by omega)] at hms'
    simp only [List.nil_append] at hms'
    rw [alookup_aset] at hms'
    by_cases hr : r = r'
    · rw [if_pos hr] at hms'
      cases hms'
      simp
    · rw [if_neg hr, alookup_aset, if_neg hr] at hms'
      exact h r' ms' hms'
  · simp only [connect, hl, Option.getD_some] at hms'
    by_cases hlen : 2 ≤ ms.length
    · rw [if_pos hlen] at hms'
      exact h r' ms' hms'
    · rw [if_neg hlen, alookup_aset] at hms'
      by_cases hr : r = r'
      · rw [if_pos hr] at hms'
        cases hms'
        have := h r ms hl
        simp only [List.length_append, List.length_cons, List.length_nil]
        omega
      · rw [if_neg hr] at hms'
        exact h r' ms' hms'

theorem capBound_disconnect (fails : Nat → Bool) (m : ConnectionManager)
    (ws : Nat) (r : String) (h : capBound m) :
    capBound (disconnect fails m ws r).1 := by
  intro r' ms' hms'
  rcases hl : alookup m.active_connections r with _ | ms
  · simp only [disconnect, hl] at hms'
    exact h r' ms' hms'
  · have herase : (ms.erase ws).length ≤ 2 :=
      le_trans (List.erase_sublist ws ms).length_le (h r ms hl)
    have hm1 : capBound (if ws ∈ ms then
        (⟨aset m.active_connections r (ms.erase ws)⟩ : ConnectionManager)
      else m) := by
      by_cases hmem : ws ∈ ms
      · rw [if_pos hmem]
        intro r₀ ms₀ hms₀
        rw [alookup_aset] at hms₀
        by_cases hr : r = r₀
        · rw [if_pos hr] at hms₀
          cases hms₀
          exact herase
        · rw [if_neg hr] at hms₀
          exact h r₀ ms₀ hms₀
      · rw [if_neg hmem]
        exact h
    simp only [disconnect, hl] at hms'
    by_cases hmem : ws ∈ ms
    · rw [if_pos hmem] at hm1
      simp only [hmem, if_true] at hms'
      by_cases hempty :
          (alookup (aset m.active_connections r (ms.erase ws)) r).getD [] = []
      · rw [if_pos hempty, alookup_adel] at hms'
        by_cases hr : r = r'
        · rw [if_pos hr] at hms'
          cases hms'
        · rw [if_neg hr] at hms'
          exact hm1 r' ms' hms'
      · rw [if_neg hempty] at hms'
        exact hm1 r' ms' hms'
    · rw [if_neg hmem] at hm1
      simp only [hmem, if_false] at hms'
      by_cases hempty : (alookup m.active_connections r).getD [] = []
      · rw [if_pos hempty, alookup_adel] at hms'
        by_cases hr : r = r'
        · rw [if_pos hr] at hms'
          cases hms'
        · rw [if_neg hr] at hms'
          exact hm1 r' ms' hms'
      · rw [if_neg hempty] at hms'
        exact hm1 r' ms' hms'

theorem capBound_simulate (ops : List RoomOp) : capBound (simulate ops) := by
  suffices h : ∀ m, capBound m → capBound (ops.foldl applyOp m) by
    refine h ⟨[]⟩ ?_
    intro r ms hms
    simp [alookup] at hms
  induction ops with
  | nil => intro m hm; exact hm
  | cons op rest ih =>
    intro m hm
    simp only [List.foldl_cons]
    refine ih (applyOp m op) ?_
    cases op with
    | connectOp ws r => exact capBound_connect m ws r hm
    | disconnectOp fails ws r => exact capBound_disconnect fails m ws r hm

/-- C8: every room of any manager reachable from the empty one holds at most
two members, and `connect` enforces this: a join on a room that already has
two members sends the joining socket the ROOM_FULL refusal, closes it with
the policy-violation code 1008 and returns false with the membership
unchanged; otherwise the connection is appended and the join returns true. -/
theorem C8_room_capacity :
    (∀ (ops : List RoomOp) (r : String) (ms : List Nat),
      alookup (simulate ops).active_connections r = some ms → ms.length ≤ 2)
    ∧ (∀ (m : ConnectionManager) (ws : Nat) (r : String) (ms : List Nat),
        alookup m.active_connections r = some ms → 2 ≤ ms.length →
        connect m ws r = (false, m,
          [.accept ws, .sendJson ws .errorRoomFull, .closeConn ws 1008]))
    ∧ (∀ (m : ConnectionManager) (ws : Nat) (r : String),
        ((alookup m.active_connections r).getD []).length < 2 →
        (connect m ws r).1 = true ∧
        alookup (connect m ws r).2.1.active_connections r =
          some (((alookup m.active_connections r).getD []) ++ [ws])) := by
  refine ⟨?_, ?_, ?_⟩
  · intro ops r ms hms
    exact capBound_simulate ops r ms hms
  · intro m ws r ms hms hlen
    simp [connect, hms, hlen]
  · intro m ws r hlt
    rcases hl : alookup m.active_connections r with _ | ms
    · have hlook : alookup (aset m.active_connections r []) r = some [] := by
        simp [alookup_aset]
      simp only [connect, hl, hlook, Option.getD_some, Option.getD_none,
        List.length_nil, List.nil_append]
      rw [if_neg (by omega)]
      simp [alookup_aset]
    · have hlt2 : ms.length < 2 := by
        rw [hl] at hlt
        simpa using hlt
      simp only [connect, hl, Option.getD_some]
      rw [if_neg (by omega)]
      simp [alookup_aset]

/-- Witness for C8 at concrete inputs: after sockets 1 and 2 join room r, a
join by socket 3 is refused with ROOM_FULL and close 1008, leaving the
membership at two; the reachable-state bound holds on that very history. -/
theorem C8_room_capacity_witness :
    (connect (simulate [.connectOp 1 "r", .connectOp 2 "r"]) 3 "r" =
      (false, ⟨[("r", [1, 2])]⟩,
       [.accept 3, .sendJson 3 .errorRoomFull, .closeConn 3 1008]))
    ∧ ((alookup (simulate [.connectOp 1 "r", .connectOp 2 "r",
        .connectOp 3 "r"]).active_connections "r").map List.length = some 2) := by
  have hsim : simulate [.connectOp 1 "r", .connectOp 2 "r"] =
      (⟨[("r", [1, 2])]⟩ : ConnectionManager) := by
    simp [simulate, applyOp, connect, alookup, aset]
  have h2 := C8_room_capacity.2.1 (⟨[("r", [1, 2])]⟩ : ConnectionManager) 3 "r"
    [1, 2] (by simp [alookup]) (by simp)
  constructor
  · rw [hsim]
    exact h2
  · have hsim3 : simulate [.connectOp 1 "r", .connectOp 2 "r",
        .connectOp 3 "r"] = (⟨[("r", [1, 2])]⟩ : ConnectionManager) := by
      simp only [simulate, List.foldl_cons, List.foldl_nil]
      have : (⟨[]⟩ : ConnectionManager).active_connections = [] := rfl
      simp [applyOp, connect, alookup, aset]
    rw [hsim3]
    rfl
